import Mathlib

/-!
# Verification of `simple-mock-server` (`src/server.py`)

A shallow embedding of the mock HTTP server in `server.py`.  Python strings
are Lean `String`s, Python `bytes` are `List Nat` (each entry `< 256`),
`None` is `Option.none`, and the filesystem is a partial map from file
names to text contents.  Each definition below is translated from the
Python source; comments point to the function it embeds.
-/

set_option autoImplicit false

namespace MockServer

/-- Python `bytes`: a list of byte values. -/
abbrev Bytes := List Nat

/-! ## UTF-8 encoding and decoding

`str.encode('utf-8')` and `bytes.decode()` in the source.  The encoder maps
every character (Unicode scalar value) to its UTF-8 byte sequence; the
decoder validates strictly (rejecting continuation-byte errors, overlong
forms, surrogates and values above U+10FFFF), as Python's strict codec does.
-/

/-- UTF-8 byte sequence of one Unicode scalar value. -/
def utf8EncodeChar (c : Char) : List Nat :=
  let n := c.toNat
  if n < 0x80 then [n]
  else if n < 0x800 then [0xC0 + n / 0x40, 0x80 + n % 0x40]
  else if n < 0x10000 then
    [0xE0 + n / 0x1000, 0x80 + n / 0x40 % 0x40, 0x80 + n % 0x40]
  else
    [0xF0 + n / 0x40000, 0x80 + n / 0x1000 % 0x40, 0x80 + n / 0x40 % 0x40,
      0x80 + n % 0x40]

/-- UTF-8 encoding of a string (`str.encode('utf-8')`). -/
def utf8Encode (s : String) : Bytes :=
  s.data.foldr (fun c acc => utf8EncodeChar c ++ acc) []

/-- Number of bytes of the UTF-8 encoding of a string. -/
def utf8ByteLength (s : String) : Nat :=
  (utf8Encode s).length

/-- Is `b` a UTF-8 continuation byte (`0x80 ≤ b < 0xC0`)? -/
def isCont (b : Nat) : Bool :=
  0x80 ≤ b && b < 0xC0

/-- Strict UTF-8 decoder on byte lists; `none` on any malformed input. -/
def utf8DecodeChars : List Nat → Option (List Char)
  | [] => some []
  | b :: rest =>
    if b < 0x80 then
      match utf8DecodeChars rest with
      | some cs => some (Char.ofNat b :: cs)
      | none => none
    else if b < 0xC2 then
      -- stray continuation byte, or overlong two-byte lead 0xC0/0xC1
      none
    else if b < 0xE0 then
      match rest with
      | b1 :: rest1 =>
        if isCont b1 then
          match utf8DecodeChars rest1 with
          | some cs => some (Char.ofNat ((b - 0xC0) * 0x40 + (b1 - 0x80)) :: cs)
          | none => none
        else none
      | [] => none
    else if b < 0xF0 then
      match rest with
      | b1 :: b2 :: rest2 =>
        if (if b = 0xE0 then decide (0xA0 ≤ b1) && decide (b1 < 0xC0)
            else if b = 0xED then decide (0x80 ≤ b1) && decide (b1 < 0xA0)
            else isCont b1) && isCont b2 then
          match utf8DecodeChars rest2 with
          | some cs =>
            some (Char.ofNat
              ((b - 0xE0) * 0x1000 + (b1 - 0x80) * 0x40 + (b2 - 0x80)) :: cs)
          | none => none
        else none
      | _ => none
    else if b < 0xF5 then
      match rest with
      | b1 :: b2 :: b3 :: rest3 =>
        if (if b = 0xF0 then decide (0x90 ≤ b1) && decide (b1 < 0xC0)
            else if b = 0xF4 then decide (0x80 ≤ b1) && decide (b1 < 0x90)
            else isCont b1) && isCont b2 && isCont b3 then
          match utf8DecodeChars rest3 with
          | some cs =>
            some (Char.ofNat
              ((b - 0xF0) * 0x40000 + (b1 - 0x80) * 0x1000
                + (b2 - 0x80) * 0x40 + (b3 - 0x80)) :: cs)
          | none => none
        else none
      | _ => none
    else none

/-- Python `bytes.decode()`: strict UTF-8, `none` models `UnicodeDecodeError`. -/
def pyDecode (bs : Bytes) : Option String :=
  match utf8DecodeChars bs with
  | some cs => some ⟨cs⟩
  | none => none

/-! ## JSON string escaping (`json.dumps` with the default `ensure_ascii=True`)

`json.dumps` leaves printable ASCII other than `"` and backslash as is,
uses the two-character escapes for `\b \t \n \f \r`, and writes every other
character as `\uXXXX` (a surrogate pair for characters above U+FFFF).
-/

/-- A single apostrophe, kept out of string literals. -/
def sq : String := ⟨[Char.ofNat 39]⟩

/-- Lower-case hexadecimal digit. -/
def hexDigitChar (n : Nat) : Char :=
  if n < 10 then Char.ofNat (48 + n) else Char.ofNat (87 + n)

/-- Four-digit lower-case hexadecimal rendering of `n % 0x10000`. -/
def hex4 (n : Nat) : String :=
  ⟨[hexDigitChar (n / 0x1000 % 16), hexDigitChar (n / 0x100 % 16),
    hexDigitChar (n / 16 % 16), hexDigitChar (n % 16)]⟩

/-- `json.dumps` escaping of one character (default `ensure_ascii=True`). -/
def jsonEscapeChar (c : Char) : String :=
  let n := c.toNat
  if n = 34 then ⟨[Char.ofNat 92, Char.ofNat 34]⟩
  else if n = 92 then ⟨[Char.ofNat 92, Char.ofNat 92]⟩
  else if 32 ≤ n && n ≤ 126 then ⟨[c]⟩
  else if n = 8 then "\\b"
  else if n = 9 then "\\t"
  else if n = 10 then "\\n"
  else if n = 12 then "\\f"
  else if n = 13 then "\\r"
  else if n < 0x10000 then "\\u" ++ hex4 n
  else
    "\\u" ++ hex4 (0xD800 + (n - 0x10000) / 0x400)
      ++ "\\u" ++ hex4 (0xDC00 + (n - 0x10000) % 0x400)

/-- `json.dumps` escaping of a whole string. -/
def jsonEscape (s : String) : String :=
  s.data.foldl (fun acc c => acc ++ jsonEscapeChar c) ""

/-- A JSON string literal: quotes around the escaped text. -/
def jsonStringLit (s : String) : String :=
  "\"" ++ jsonEscape s ++ "\""

/-! ## `CallsRegistry` (lines 29-48 of the source) -/

/-- One record appended by `CallsRegistry.add`:
`{'method': method, 'path': path, 'body': body}`. -/
structure CallRecord where
  method : String
  path : String
  body : Option String
deriving DecidableEq, Repr

/-- The exception raised by `bytes.decode()` on invalid UTF-8. -/
inductive UnicodeDecodeError
  | unicodeDecodeError
deriving DecidableEq, Repr

instance exceptDecEq {ε α : Type} [DecidableEq ε] [DecidableEq α] :
    DecidableEq (Except ε α) := fun x y =>
  match x, y with
  | .ok a, .ok b =>
    match decEq a b with
    | isTrue h => isTrue (h ▸ rfl)
    | isFalse h => isFalse fun hh => h (Except.ok.inj hh)
  | .error a, .error b =>
    match decEq a b with
    | isTrue h => isTrue (h ▸ rfl)
    | isFalse h => isFalse fun hh => h (Except.error.inj hh)
  | .ok _, .error _ => isFalse fun h => Except.noConfusion h
  | .error _, .ok _ => isFalse fun h => Except.noConfusion h

namespace CallsRegistry

/-- `CallsRegistry.add(self, method, path, body)`: decodes the body when it
is present (raising `UnicodeDecodeError` on invalid UTF-8) and appends one
record to the registry list. -/
def add (registry : List CallRecord) (method path : String)
    (body : Option Bytes) : Except UnicodeDecodeError (List CallRecord) :=
  match body with
  | none => .ok (registry ++ [⟨method, path, none⟩])
  | some bs =>
    match pyDecode bs with
    | some s => .ok (registry ++ [⟨method, path, some s⟩])
    | none => .error .unicodeDecodeError

end CallsRegistry

/-- `json.dumps` of one registry record, with `json.dumps`'s default
separators and Python's insertion order of the keys. -/
def jsonRecord (r : CallRecord) : String :=
  "\x7b\"method\": " ++ jsonStringLit r.method
    ++ ", \"path\": " ++ jsonStringLit r.path
    ++ ", \"body\": "
    ++ (match r.body with
        | some s => jsonStringLit s
        | none => "null")
    ++ "\x7d"

/-- Comma-space separated concatenation, as `json.dumps` renders a list. -/
def joinCommaSep : List String → String
  | [] => ""
  | [s] => s
  | s :: rest => s ++ ", " ++ joinCommaSep rest

/-- `json.dumps(REGISTRY.list())`. -/
def jsonDumpsCalls (rs : List CallRecord) : String :=
  "[" ++ joinCommaSep (rs.map jsonRecord) ++ "]"

/-! ## Response bodies

`MockedResponse.MockedResponseBody` (lines 131-164) and
`MockerResponse.Body` (lines 110-122).  A Python value returned by
`load()` is either a `str` (text-mode `file.read()`), a `bytes`
(`str.encode`), or `None` (the failure sentinel).
-/

/-- A Python value as produced by the two `load()` implementations. -/
inductive PyVal
  | pyStr (s : String)
  | pyBytes (b : Bytes)
  | pyNone
deriving DecidableEq, Repr

/-- Is the value a Python `bytes` object? -/
def PyVal.isBytes : PyVal → Bool
  | .pyBytes _ => true
  | _ => false

/-- `self._file_definition = "@file://"`. -/
def fileDefinition : String := "@file://"

/-- Python's `needle in haystack` on strings, over the character lists:
`true` iff some suffix of the haystack has the needle as a prefix. -/
def listContainsSub (needle : List Char) : List Char → Bool
  | [] => needle.isEmpty
  | c :: rest => needle.isPrefixOf (c :: rest) || listContainsSub needle rest

/-- `content.replace("@file://", "")`: removes every (left-to-right,
non-overlapping) occurrence of the eight-character marker. -/
def stripMarker : List Char → List Char
  | '@' :: 'f' :: 'i' :: 'l' :: 'e' :: ':' :: '/' :: '/' :: rest =>
    stripMarker rest
  | c :: rest => c :: stripMarker rest
  | [] => []

/-- `content.replace("@file://", "")` on strings. -/
def stripMarkerStr (s : String) : String :=
  ⟨stripMarker s.data⟩

/-- The filesystem: a partial map from file names to text contents. -/
abbrev FileSystem := String → Option String

/-- State of a `MockedResponseBody` after `__init__`. -/
structure MockedResponseBody where
  content : String
  is_file : Bool
deriving DecidableEq, Repr

/-- `MockedResponseBody.__init__(self, content=None)`:
`content = content if content else ""` (so `None` and `""` both give `""`)
and `is_file = "@file://" in content`. -/
def mkMockedResponseBody (content : Option String) : MockedResponseBody :=
  let c := match content with
    | none => ""
    | some s => if s = "" then "" else s
  ⟨c, listContainsSub fileDefinition.data c.data⟩

/-- `MockedResponseBody.load(self)`: for a file-backed body, open the file
named by the content with the marker removed and return `file.read()` (a
`str`, since the file is opened in text mode); on any failure to open or
read, log and return `None`.  For an inline body, return
`content.encode('utf-8')` (a `bytes`). -/
def MockedResponseBody.load (fs : FileSystem) (b : MockedResponseBody) :
    PyVal :=
  if b.is_file then
    match fs (stripMarkerStr b.content) with
    | some text => .pyStr text
    | none => .pyNone
  else .pyBytes (utf8Encode b.content)

/-- `MockedResponseBody.__len__(self)`: always tries
`os.stat(content.replace("@file://", "")).st_size`, falling back to
`len("None")` when the stat fails; returns that number when the body is
file-backed and `len(self.content)` (a character count) otherwise.
`os.stat(...).st_size` of a text file is the byte length of its content. -/
def MockedResponseBody.pyLen (fs : FileSystem) (b : MockedResponseBody) :
    Nat :=
  let length := match fs (stripMarkerStr b.content) with
    | some text => utf8ByteLength text
    | none => ("None" : String).length
  if b.is_file then length else b.content.length

/-- State of a `MockerResponse.Body` after `__init__`:
`self.body = body or ''`. -/
structure MockerBody where
  body : String
deriving DecidableEq, Repr

/-- `MockerResponse.Body.__init__(self, body=None)`. -/
def mkMockerBody (body : Option String) : MockerBody :=
  ⟨match body with
    | none => ""
    | some s => if s = "" then "" else s⟩

/-- `MockerResponse.Body.load(self)`: `self.body.encode()` (UTF-8). -/
def MockerBody.load (b : MockerBody) : PyVal :=
  .pyBytes (utf8Encode b.body)

/-- `MockerResponse.Body.__len__(self)`: `len(self.body)`. -/
def MockerBody.pyLen (b : MockerBody) : Nat :=
  b.body.length

/-- The body wrapper held by a `Response`: `MockerResponse` uses `Body`,
`MockedResponse` uses `MockedResponseBody`. -/
inductive RespBody
  | mocker (b : MockerBody)
  | mocked (b : MockedResponseBody)
deriving DecidableEq, Repr

/-- `response.body.load()`. -/
def RespBody.load (fs : FileSystem) : RespBody → PyVal
  | .mocker b => b.load
  | .mocked b => b.load fs

/-- `len(response.body)`. -/
def RespBody.pyLen (fs : FileSystem) : RespBody → Nat
  | .mocker b => b.pyLen
  | .mocked b => b.pyLen fs

/-! ## `Response.__init__` (lines 87-102) and its two subclasses -/

/-- A constructed `Response` object. -/
structure Response where
  method : String
  path : String
  response_code : Nat
  headers : List (String × String)
  delay : Nat
  body : RespBody
deriving DecidableEq, Repr

/-- Python `x or default` for an optional integer: `None` and `0` are
falsy. -/
def pyOrNat (v : Option Nat) (default : Nat) : Nat :=
  match v with
  | none => default
  | some n => if n = 0 then default else n

/-- Python `x if x else default` for an optional string: `None` and `""`
are falsy. -/
def pyOrStr (v : Option String) (default : String) : String :=
  match v with
  | none => default
  | some s => if s = "" then default else s

/-- Python `headers or []`. -/
def pyOrHeaders (v : Option (List (String × String))) :
    List (String × String) :=
  match v with
  | none => []
  | some l => l

/-- The shared part of `Response.__init__`; the body wrapper is supplied by
the subclass's `body_wrapper_cls`. -/
def responseInit (method path : Option String) (response_code : Option Nat)
    (headers : Option (List (String × String))) (delay : Option Nat)
    (body : RespBody) : Response :=
  { method := pyOrStr method "GET"
    path := pyOrStr path "/"
    response_code := pyOrNat response_code 200
    headers := pyOrHeaders headers
    delay := pyOrNat delay 0
    body := body }

/-- `MockerResponse(method, path, response_code, headers, body, delay)`. -/
def mkMockerResponse (method path : Option String) (response_code : Option Nat)
    (headers : Option (List (String × String))) (body : Option String)
    (delay : Option Nat) : Response :=
  responseInit method path response_code headers delay
    (.mocker (mkMockerBody body))

/-- `MockedResponse(method, path, response_code, headers, body, delay)`. -/
def mkMockedResponse (method path : Option String) (response_code : Option Nat)
    (headers : Option (List (String × String))) (body : Option String)
    (delay : Option Nat) : Response :=
  responseInit method path response_code headers delay
    (.mocked (mkMockedResponseBody body))

/-- The text held by a response's body wrapper. -/
def RespBody.text : RespBody → String
  | .mocker b => b.body
  | .mocked b => b.content

/-! ## `Configuration` (lines 52-84) and the handler (lines 167-243)

The five per-method dicts are modelled as partial maps from paths to
responses; a Python dict lookup is an exact, byte-for-byte string match,
with no wildcard, trailing-slash or query-string normalisation, and so is
an application of the map.
-/

/-- The five response maps built by `Configuration`. -/
structure Configuration where
  head_response_map : String → Option Response
  get_response_map : String → Option Response
  post_response_map : String → Option Response
  put_response_map : String → Option Response
  delete_response_map : String → Option Response

/-- `SimpleHandler.response_map` followed by `.get(method)`: the bound
`dict.get` of the map for the method, or `None` for any other method. -/
def response_map (cfg : Configuration) (method : String) :
    Option (String → Option Response) :=
  match method with
  | "HEAD" => some cfg.head_response_map
  | "GET" => some cfg.get_response_map
  | "POST" => some cfg.post_response_map
  | "PUT" => some cfg.put_response_map
  | "DELETE" => some cfg.delete_response_map
  | _ => none

/-- `path.startswith('/mocker')`. -/
def startsWithMocker (path : String) : Bool :=
  ("/mocker" : String).data.isPrefixOf path.data

/-- Body of the 404 answer:
`json.dumps({"message": f"path '{path}' not found"})`. -/
def notFoundBody (path : String) : String :=
  "\x7b\"message\": \"path " ++ sq ++ jsonEscape path ++ sq
    ++ " not found\"\x7d"

/-- The synthesized 404 response (lines 233-236). -/
def notFoundResponse (method path : String) : Response :=
  mkMockedResponse (some method) (some path) (some 404)
    (some [("Content-Type", "application/json")]) (some (notFoundBody path))
    none

/-- The exception text of calling `None` (`response_map.get` missed). -/
def noneNotCallable : String :=
  sq ++ "NoneType" ++ sq ++ " object is not callable"

/-- Body of the 500 answer of the `except` branch (lines 238-241):
`json.dumps({"message": f"An error happened with path '{path}': {err}"})`.
With the five handled methods the lookup cannot raise, so this branch is
only reachable through `response_map.get` returning `None`, whose call
raises a `TypeError`. -/
def errorHappenedBody (path : String) : String :=
  "\x7b\"message\": \"An error happened with path " ++ sq ++ jsonEscape path
    ++ sq ++ ": " ++ jsonEscape noneNotCallable ++ "\"\x7d"

/-- The synthesized 500 response of the `except` branch (lines 238-241). -/
def errorHappenedResponse (method path : String) : Response :=
  mkMockedResponse (some method) (some path) (some 500)
    (some [("Content-Type", "application/json")])
    (some (errorHappenedBody path)) none

/-- `SimpleHandler.retrieve_response(self, path, method)` (lines 208-243).
The `content` argument stands for the value computed at lines 224-226:
`None` when no `Content-Length` header was sent (the condition
`self.headers.get('Content-Length') or 0 > 0` is, by Python operator
precedence, just the truthiness of the header), and the body bytes read
from the stream otherwise.  Note `REGISTRY.add(path, method, content)` at
line 228 passes `path` for `add`'s `method` parameter and `method` for its
`path` parameter, and runs before (and outside) the `try` around the
lookup.  The result pairs the chosen `Response` with the new registry. -/
def retrieve_response (cfg : Configuration) (registry : List CallRecord)
    (path method : String) (content : Option Bytes) :
    Except UnicodeDecodeError (Response × List CallRecord) :=
  if startsWithMocker path then
    match method with
    | "GET" =>
      .ok (mkMockerResponse (some method) (some path) (some 200)
        (some [("Content-Type", "application/json")])
        (some (jsonDumpsCalls registry)) none, registry)
    | "DELETE" =>
      .ok (mkMockerResponse (some method) (some path) (some 204) (some [])
        (some "") none, [])
    | _ =>
      .ok (mkMockerResponse (some method) (some path) (some 500) (some [])
        (some "Unknown method") none, registry)
  else
    match CallsRegistry.add registry path method content with
    | .error e => .error e
    | .ok registry1 =>
      match response_map cfg method with
      | none => .ok (errorHappenedResponse method path, registry1)
      | some methodMap =>
        match methodMap path with
        | some r => .ok (r, registry1)
        | none => .ok (notFoundResponse method path, registry1)

/-- What `SimpleHandler.send` (lines 197-206) puts on the wire: the status
line (`send_response`), the configured headers, a `Content-length` header
equal to `len(response.body)`, and the argument of `wfile.write`, namely
`response.body.load()` (which `wfile.write` accepts only when it is a
`bytes`). -/
structure SentResponse where
  status : Nat
  headers : List (String × String)
  content_length : Nat
  delay : Nat
  body_written : PyVal
deriving DecidableEq, Repr

/-- `SimpleHandler.send(self, path, response)`. -/
def send (fs : FileSystem) (r : Response) : SentResponse :=
  { status := r.response_code
    headers := r.headers
    content_length := RespBody.pyLen fs r.body
    delay := r.delay
    body_written := RespBody.load fs r.body }

/-- The commands for which `SimpleHandler` defines a `do_<METHOD>`
handler (lines 177-195). -/
def doMethods : List String := ["HEAD", "GET", "POST", "DELETE", "PUT"]

/-- Outcome of one request at the server boundary. -/
inductive ServerReply
  /-- A `do_` handler ran `retrieve_response` and `send`. -/
  | replied (sent : SentResponse) (registry : List CallRecord)
  /-- No `do_<METHOD>` handler exists: `BaseHTTPRequestHandler`'s
  `handle_one_request` answers `501 Unsupported method` itself. -/
  | unsupportedMethod501
  /-- An exception escaped the handler (here: `UnicodeDecodeError` from
  `REGISTRY.add`): no response is produced for the request. -/
  | connectionAborted (e : UnicodeDecodeError)
deriving DecidableEq, Repr

/-- The status line sent for the request, if any. -/
def ServerReply.statusSent : ServerReply → Option Nat
  | .replied sent _ => some sent.status
  | .unsupportedMethod501 => some 501
  | .connectionAborted _ => none

/-- One request at the server boundary.  `BaseHTTPRequestHandler`'s
`handle_one_request` dispatches the parsed command to `do_<command>`,
sending `501 Unsupported method` when the handler class has no such
attribute; each `do_` method of `SimpleHandler` calls `retrieve_response`
and then `send`. -/
def serve (cfg : Configuration) (fs : FileSystem)
    (registry : List CallRecord) (method path : String)
    (content : Option Bytes) : ServerReply :=
  if method ∈ doMethods then
    match retrieve_response cfg registry path method content with
    | .ok (r, registry1) => .replied (send fs r) registry1
    | .error e => .connectionAborted e
  else .unsupportedMethod501

/-- A configuration with no mocked responses at all. -/
def cfgEmpty : Configuration :=
  ⟨fun _ => none, fun _ => none, fun _ => none, fun _ => none, fun _ => none⟩

/-- An empty filesystem. -/
def fsEmpty : FileSystem := fun _ => none

/-- A filesystem holding one file, `greeting.txt`, containing `hello`. -/
def fsGreeting : FileSystem :=
  fun p => if p = "greeting.txt" then some "hello" else none

/-! ## Supporting lemmas -/

/-- `List.isPrefixOf` agrees with the existence of a completing suffix. -/
theorem isPrefixOf_iff_append (needle hs : List Char) :
    needle.isPrefixOf hs = true ↔ ∃ post, hs = needle ++ post := by
  induction needle generalizing hs with
  | nil => simp [List.isPrefixOf]
  | cons a t ih =>
    cases hs with
    | nil => simp [List.isPrefixOf]
    | cons b t2 =>
      simp only [List.isPrefixOf, Bool.and_eq_true, beq_iff_eq, ih,
        List.cons_append, List.cons.injEq]
      constructor
      · rintro ⟨rfl, post, rfl⟩
        exact ⟨post, rfl, rfl⟩
      · rintro ⟨post, rfl, rfl⟩
        exact ⟨rfl, post, rfl⟩

/-- `listContainsSub` (Python's `in` on strings) agrees with the existence
of a decomposition around the needle. -/
theorem listContainsSub_iff (needle hs : List Char) :
    listContainsSub needle hs = true ↔
      ∃ pre post, hs = pre ++ needle ++ post := by
  induction hs with
  | nil =>
    constructor
    · intro h
      have hn : needle = [] := by
        cases needle with
        | nil => rfl
        | cons a t => simp [listContainsSub, List.isEmpty] at h
      exact ⟨[], [], by simp [hn]⟩
    · rintro ⟨pre, post, h⟩
      have h1 : pre ++ (needle ++ post) = [] := by simpa using h.symm
      have h2 := List.append_eq_nil.mp h1
      have h3 := List.append_eq_nil.mp h2.2
      simp [listContainsSub, h3.1]
  | cons c rest ih =>
    simp only [listContainsSub, Bool.or_eq_true, isPrefixOf_iff_append, ih]
    constructor
    · rintro (⟨post, h⟩ | ⟨pre, post, h⟩)
      · exact ⟨[], post, by simpa using h⟩
      · exact ⟨c :: pre, post, by simp [h]⟩
    · rintro ⟨pre, post, h⟩
      cases pre with
      | nil => exact Or.inl ⟨post, by simpa using h⟩
      | cons d pre2 =>
        have h2 : c = d ∧ rest = pre2 ++ needle ++ post := by
          simpa using h
        exact Or.inr ⟨pre2, post, h2.2⟩

/-- The `content` field survives construction unchanged. -/
theorem mkMockedResponseBody_content (raw : String) :
    (mkMockedResponseBody (some raw)).content = raw := by
  by_cases h : raw = "" <;> simp [mkMockedResponseBody, h]

/-- The `is_file` flag is the containment test on the raw string. -/
theorem mkMockedResponseBody_is_file (raw : String) :
    (mkMockedResponseBody (some raw)).is_file =
      listContainsSub fileDefinition.data raw.data := by
  by_cases h : raw = "" <;> simp [mkMockedResponseBody, h]

/-- A list without any occurrence of the marker is left unchanged by
`stripMarker` (`str.replace` removes nothing when the pattern is
absent). -/
theorem stripMarker_no_occurrence (l : List Char)
    (h : listContainsSub fileDefinition.data l = false) :
    stripMarker l = l := by
  induction l using stripMarker.induct with
  | case1 rest ih =>
    exfalso
    simp [fileDefinition, listContainsSub, List.isPrefixOf] at h
  | case2 c rest hne ih =>
    simp only [listContainsSub, Bool.or_eq_false_iff] at h
    rw [stripMarker.eq_2 c rest hne, ih h.2]
  | case3 => rfl

/-- When the marker occurs exactly once, as a prefix, removing it leaves
exactly the remainder after the prefix. -/
theorem stripMarker_of_marker_append (tail : String)
    (h : listContainsSub fileDefinition.data tail.data = false) :
    stripMarkerStr (fileDefinition ++ tail) = tail := by
  obtain ⟨d⟩ := tail
  show (⟨stripMarker (fileDefinition.data ++ d)⟩ : String) = ⟨d⟩
  rw [show fileDefinition.data ++ d
      = '@' :: 'f' :: 'i' :: 'l' :: 'e' :: ':' :: '/' :: '/' :: d from rfl,
    stripMarker.eq_1, stripMarker_no_occurrence d h]

/-- Each ASCII character encodes to a single UTF-8 byte. -/
theorem foldrEncode_length (l : List Char) (h : ∀ c ∈ l, c.toNat < 128) :
    (l.foldr (fun c acc => utf8EncodeChar c ++ acc) []).length = l.length := by
  induction l with
  | nil => rfl
  | cons c rest ih =>
    have hc : c.toNat < 128 := h c (List.mem_cons_self c rest)
    have h1 : utf8EncodeChar c = [c.toNat] := by
      simp [utf8EncodeChar, hc]
    have h2 := ih (fun a ha => h a (List.mem_cons_of_mem c ha))
    simp [List.foldr_cons, h1, h2]

/-- For an ASCII-only string the UTF-8 byte length is the character
count. -/
theorem utf8ByteLength_of_ascii (s : String)
    (h : ∀ c ∈ s.data, c.toNat < 128) :
    utf8ByteLength s = s.length := by
  show (s.data.foldr (fun c acc => utf8EncodeChar c ++ acc) []).length
    = s.length
  rw [foldrEncode_length s.data h]
  rfl

/-! ## Claims -/

/-- C1: the registry round-trip claim fails on the code: the spec says each
record's `method` field equals the original request's method and its `path`
field the original path, but line 228 calls `REGISTRY.add(path, method,
content)` against the signature `add(self, method, path, body)`, so a
`POST /foo` request is recorded as `{'method': '/foo', 'path': 'POST',
'body': null}`, and `GET /mocker` then serialises exactly that swapped
record. -/
theorem C1_add_swaps_method_and_path :
    retrieve_response cfgEmpty [] "/foo" "POST" none =
      .ok (notFoundResponse "POST" "/foo",
        [(⟨"/foo", "POST", none⟩ : CallRecord)])
    ∧ retrieve_response cfgEmpty [(⟨"/foo", "POST", none⟩ : CallRecord)]
        "/mocker" "GET" none =
      .ok (mkMockerResponse (some "GET") (some "/mocker") (some 200)
          (some [("Content-Type", "application/json")])
          (some ("[\x7b\"method\": \"/foo\", \"path\": \"POST\", "
            ++ "\"body\": null\x7d]")) none,
        [(⟨"/foo", "POST", none⟩ : CallRecord)])
    ∧ (⟨"/foo", "POST", none⟩ : CallRecord).method = "/foo"
    ∧ ("/foo" : String) ≠ "POST" := by
  refine ⟨by decide, by decide, rfl, by decide⟩

/-- C2, counterexample: the claim says a body is file-backed **iff** the raw
string starts with `@file://`; but `is_file = "@file://" in content` is a
containment test, so `"x@file://y"`, which does not start with the marker,
still yields a file-backed body rather than an Inline one. -/
theorem C2_counterexample :
    (mkMockedResponseBody (some ("x" ++ fileDefinition ++ "y"))).is_file
      = true
    ∧ fileDefinition.data.isPrefixOf
        ("x" ++ fileDefinition ++ "y").data = false := by
  refine ⟨by decide, by decide⟩

/-- C2, amended: the body is file-backed iff the raw string contains
`@file://` anywhere (equivalently, iff it decomposes around the marker);
the raw string is held unchanged; a non-file body loads as the UTF-8 bytes
of the raw string; and a file-backed body loads from the file named by the
raw string with every occurrence of the marker removed. -/
theorem C2_amended (raw : String) (fs : FileSystem) :
    ((mkMockedResponseBody (some raw)).is_file = true ↔
      ∃ pre post, raw.data = pre ++ fileDefinition.data ++ post)
    ∧ (mkMockedResponseBody (some raw)).content = raw
    ∧ ((mkMockedResponseBody (some raw)).is_file = false →
        MockedResponseBody.load fs (mkMockedResponseBody (some raw)) =
          PyVal.pyBytes (utf8Encode raw))
    ∧ ((mkMockedResponseBody (some raw)).is_file = true →
        MockedResponseBody.load fs (mkMockedResponseBody (some raw)) =
          match fs (stripMarkerStr raw) with
          | some text => PyVal.pyStr text
          | none => PyVal.pyNone)
    ∧ (∀ tail, raw = fileDefinition ++ tail →
        listContainsSub fileDefinition.data tail.data = false →
        MockedResponseBody.load fs (mkMockedResponseBody (some raw)) =
          match fs tail with
          | some text => PyVal.pyStr text
          | none => PyVal.pyNone) := by
  have hc := mkMockedResponseBody_content raw
  refine ⟨?_, hc, ?_, ?_, ?_⟩
  · rw [mkMockedResponseBody_is_file, listContainsSub_iff]
  · intro h
    simp [MockedResponseBody.load, h, hc]
  · intro h
    simp only [MockedResponseBody.load, h, if_true, hc]
  · rintro tail rfl htail
    have hfile :
        (mkMockedResponseBody (some (fileDefinition ++ tail))).is_file
          = true := by
      rw [mkMockedResponseBody_is_file, listContainsSub_iff]
      refine ⟨[], tail.data, ?_⟩
      obtain ⟨d⟩ := tail
      rfl
    simp only [MockedResponseBody.load, hfile, if_true, hc]
    rw [stripMarker_of_marker_append tail htail]

/-- C2, witness: `@file://greeting.txt` is file-backed, hence decomposes
around the marker. -/
theorem C2_witness :
    ∃ pre post, ("@file://greeting.txt" : String).data =
      pre ++ fileDefinition.data ++ post :=
  (C2_amended "@file://greeting.txt" fsGreeting).1.mp (by decide)

/-- C3, counterexample: the claim says an Inline body's `length()` is the
byte length of its UTF-8 encoding even for non-ASCII text; but `__len__`
returns `len(self.content)`, a character count.  For the one-character text
`é` (U+00E9) it returns `1` while the UTF-8 encoding — which is what
`load()` hands to the transport — has `2` bytes, so the emitted
`Content-length` header is `1` for a two-byte body. -/
theorem C3_counterexample :
    MockedResponseBody.pyLen fsEmpty
      (mkMockedResponseBody (some (⟨[Char.ofNat 233]⟩ : String))) = 1
    ∧ utf8ByteLength (⟨[Char.ofNat 233]⟩ : String) = 2
    ∧ (send fsEmpty (mkMockedResponse (some "GET") (some "/") (some 200)
        none (some (⟨[Char.ofNat 233]⟩ : String)) none)).content_length = 1
    ∧ (send fsEmpty (mkMockedResponse (some "GET") (some "/") (some 200)
        none (some (⟨[Char.ofNat 233]⟩ : String)) none)).body_written =
      PyVal.pyBytes [0xC3, 0xA9]
    ∧ (1 : Nat) ≠ 2 := by
  refine ⟨by decide, by decide, by decide, by decide, by decide⟩

/-- C3, amended: for an Inline body, `length()` returns the number of
characters of the text (and the transport emits that count as
`Content-length`); this equals the UTF-8 byte length exactly when every
character of the text is ASCII. -/
theorem C3_amended (raw : String) (fs : FileSystem)
    (hinline : (mkMockedResponseBody (some raw)).is_file = false) :
    MockedResponseBody.pyLen fs (mkMockedResponseBody (some raw))
      = raw.length
    ∧ ((∀ c ∈ raw.data, c.toNat < 128) →
        raw.length = utf8ByteLength raw) := by
  constructor
  · simp [MockedResponseBody.pyLen, hinline, mkMockedResponseBody_content]
  · intro h
    exact (utf8ByteLength_of_ascii raw h).symm

/-- C3, witness: the ASCII text `abc` has length `3` and equal byte
length. -/
theorem C3_witness :
    MockedResponseBody.pyLen fsEmpty (mkMockedResponseBody (some "abc"))
      = ("abc" : String).length
    ∧ ("abc" : String).length = utf8ByteLength "abc" :=
  ⟨(C3_amended "abc" fsEmpty (by decide)).1,
    (C3_amended "abc" fsEmpty (by decide)).2 (by decide)⟩

/-- C4, counterexample: the claim says `load()` returns bytes; but a
file-backed body opens the file in text mode and returns `file.read()`,
a `str`.  With `greeting.txt` containing `hello`, `load()` yields the
Python string `"hello"`, not a bytes object. -/
theorem C4_counterexample :
    MockedResponseBody.load fsGreeting
      (mkMockedResponseBody (some "@file://greeting.txt"))
      = PyVal.pyStr "hello"
    ∧ (MockedResponseBody.load fsGreeting
        (mkMockedResponseBody (some "@file://greeting.txt"))).isBytes
      = false := by
  refine ⟨by decide, by decide⟩

/-- C4, amended: a readable file-backed body loads as the file's content —
as a Python `str`, not bytes; when the file cannot be opened, `load()`
does not raise: it logs and returns the `None` sentinel; an Inline body
loads as the UTF-8 bytes of its text; and `send` emits the configured
status code regardless of what the body loads to. -/
theorem C4_amended (fs : FileSystem) (raw : String) (r : Response) :
    ((mkMockedResponseBody (some raw)).is_file = true →
      ∀ text, fs (stripMarkerStr raw) = some text →
        MockedResponseBody.load fs (mkMockedResponseBody (some raw)) =
          PyVal.pyStr text)
    ∧ ((mkMockedResponseBody (some raw)).is_file = true →
        fs (stripMarkerStr raw) = none →
        MockedResponseBody.load fs (mkMockedResponseBody (some raw)) =
          PyVal.pyNone)
    ∧ ((mkMockedResponseBody (some raw)).is_file = false →
        MockedResponseBody.load fs (mkMockedResponseBody (some raw)) =
          PyVal.pyBytes (utf8Encode raw))
    ∧ (send fs r).status = r.response_code := by
  have hc := mkMockedResponseBody_content raw
  refine ⟨?_, ?_, ?_, rfl⟩
  · intro h text hfs
    simp [MockedResponseBody.load, h, hc, hfs]
  · intro h hfs
    simp [MockedResponseBody.load, h, hc, hfs]
  · intro h
    simp [MockedResponseBody.load, h, hc]

/-- C4, witness: `@file://greeting.txt` loads as the string `hello` when
the file exists and as `None` when it does not. -/
theorem C4_witness :
    MockedResponseBody.load fsGreeting
      (mkMockedResponseBody (some "@file://greeting.txt"))
      = PyVal.pyStr "hello"
    ∧ MockedResponseBody.load fsEmpty
      (mkMockedResponseBody (some "@file://greeting.txt"))
      = PyVal.pyNone :=
  ⟨(C4_amended fsGreeting "@file://greeting.txt"
      (notFoundResponse "GET" "/")).1 (by decide) "hello" (by decide),
    (C4_amended fsEmpty "@file://greeting.txt"
      (notFoundResponse "GET" "/")).2.1 (by decide) (by decide)⟩

/-- C7: when the body is file-backed and the referenced file is
inaccessible at the moment `__len__` runs, the `except` branch yields
`len("None")`, which is exactly `4`. -/
theorem C7_missing_file_length (fs : FileSystem) (raw : String)
    (hfile : (mkMockedResponseBody (some raw)).is_file = true)
    (hmissing :
      fs (stripMarkerStr (mkMockedResponseBody (some raw)).content) = none) :
    MockedResponseBody.pyLen fs (mkMockedResponseBody (some raw)) = 4
    ∧ ("None" : String).length = 4 := by
  refine ⟨?_, by decide⟩
  simp only [MockedResponseBody.pyLen, hmissing, hfile, if_true]
  decide

/-- C7, witness: with an empty filesystem, `@file://missing.txt` has
length `4`. -/
theorem C7_witness :
    MockedResponseBody.pyLen fsEmpty
      (mkMockedResponseBody (some "@file://missing.txt")) = 4
    ∧ ("None" : String).length = 4 :=
  C7_missing_file_length fsEmpty "@file://missing.txt" (by decide)
    (by decide)

/-- C5, counterexample: the claim says an undecodable body is surfaced as a
request-level 500; but `REGISTRY.add` runs before (and outside) the
`try`/`except` of `retrieve_response`, so the `UnicodeDecodeError` for the
single byte `0xFF` escapes the handler: no status line is sent at all —
the request is left unanswered, not answered with 500. -/
theorem C5_counterexample :
    serve cfgEmpty fsEmpty [] "POST" "/upload" (some [255])
      = ServerReply.connectionAborted .unicodeDecodeError
    ∧ (serve cfgEmpty fsEmpty [] "POST" "/upload"
        (some [255])).statusSent = none := by
  refine ⟨by decide, by decide⟩

/-- C5, amended: `CallsRegistry.add` raises a decoding error iff a raw
body is present and its bytes are not valid UTF-8; on a non-introspection
request that failure propagates out of the handler uncaught, so the
request receives no response at all (the connection is aborted) rather
than a request-level 500. -/
theorem C5_amended (registry : List CallRecord) (cfg : Configuration)
    (fs : FileSystem) (method path : String) (content : Option Bytes)
    (hm : method ∈ doMethods) (hp : startsWithMocker path = false) :
    (CallsRegistry.add registry path method content
        = .error .unicodeDecodeError
      ↔ ∃ bs, content = some bs ∧ pyDecode bs = none)
    ∧ (CallsRegistry.add registry path method content
        = .error .unicodeDecodeError →
      serve cfg fs registry method path content
        = .connectionAborted .unicodeDecodeError) := by
  constructor
  · constructor
    · intro h
      cases content with
      | none => simp [CallsRegistry.add] at h
      | some bs =>
        cases hd : pyDecode bs with
        | none => exact ⟨bs, rfl, hd⟩
        | some s => simp [CallsRegistry.add, hd] at h
    · rintro ⟨bs, rfl, hd⟩
      simp [CallsRegistry.add, hd]
  · intro h
    simp [serve, hm, retrieve_response, hp, h]

/-- C5, witness: a truncated two-byte sequence `0xC3` aborts the request
without a response. -/
theorem C5_witness :
    serve cfgEmpty fsEmpty [] "POST" "/x" (some [0xC3])
      = ServerReply.connectionAborted .unicodeDecodeError :=
  (C5_amended [] cfgEmpty fsEmpty "POST" "/x" (some [0xC3]) (by decide)
      (by decide)).2
    ((C5_amended [] cfgEmpty fsEmpty "POST" "/x" (some [0xC3]) (by decide)
      (by decide)).1.mpr ⟨[0xC3], rfl, by decide⟩)

/-- C6: whenever a non-introspection request is answered, the registry has
grown by exactly one appended record — the `add` runs before the table
lookup, so this holds whether the lookup found a configured response or
fell through to the 404 — while an answered introspection-path request
never appends a record (GET and unknown methods leave the registry
unchanged, DELETE clears it). -/
theorem C6_registry_growth (cfg : Configuration) (fs : FileSystem)
    (registry : List CallRecord) (method path : String)
    (content : Option Bytes) :
    (startsWithMocker path = false →
      ∀ sent registry1,
        serve cfg fs registry method path content
          = .replied sent registry1 →
        ∃ rec, registry1 = registry ++ [rec])
    ∧ (startsWithMocker path = true →
      ∀ sent registry1,
        serve cfg fs registry method path content
          = .replied sent registry1 →
        registry1 = registry ∨ registry1 = []) := by
  constructor
  · intro hp sent registry1 h
    by_cases hm : method ∈ doMethods
    · simp only [serve, if_pos hm] at h
      cases hr : retrieve_response cfg registry path method content with
      | error e =>
        rw [hr] at h
        simp at h
      | ok val =>
        obtain ⟨r, reg1⟩ := val
        rw [hr] at h
        injection h with h1 h2
        subst h2
        cases ha : CallsRegistry.add registry path method content with
        | error e =>
          simp only [retrieve_response, hp, Bool.false_eq_true, if_false,
            ha] at hr
          exact Except.noConfusion hr
        | ok reg2 =>
          simp only [retrieve_response, hp, Bool.false_eq_true, if_false,
            ha] at hr
          have hgrow : ∃ rec, reg2 = registry ++ [rec] := by
            cases content with
            | none =>
              simp only [CallsRegistry.add] at ha
              exact ⟨_, (Except.ok.inj ha).symm⟩
            | some bs =>
              cases hd : pyDecode bs with
              | none => simp [CallsRegistry.add, hd] at ha
              | some s =>
                simp only [CallsRegistry.add, hd] at ha
                exact ⟨_, (Except.ok.inj ha).symm⟩
          obtain ⟨rec, hrec⟩ := hgrow
          refine ⟨rec, ?_⟩
          cases hmap : response_map cfg method with
          | none =>
            simp only [hmap] at hr
            injection hr with h3
            injection h3 with h4 h5
            exact h5 ▸ hrec
          | some methodMap =>
            simp only [hmap] at hr
            cases hpath : methodMap path with
            | none =>
              simp only [hpath] at hr
              injection hr with h3
              injection h3 with h4 h5
              exact h5 ▸ hrec
            | some r2 =>
              simp only [hpath] at hr
              injection hr with h3
              injection h3 with h4 h5
              exact h5 ▸ hrec
    · simp [serve, hm] at h
  · intro hp sent registry1 h
    by_cases hm : method ∈ doMethods
    · simp only [serve, if_pos hm] at h
      cases hr : retrieve_response cfg registry path method content with
      | error e =>
        rw [hr] at h
        simp at h
      | ok val =>
        obtain ⟨r, reg1⟩ := val
        rw [hr] at h
        injection h with h1 h2
        subst h2
        simp only [retrieve_response, hp, if_true] at hr
        by_cases hG : method = "GET"
        · subst hG
          injection hr with h3
          injection h3 with h4 h5
          exact Or.inl h5.symm
        · by_cases hD : method = "DELETE"
          · subst hD
            injection hr with h3
            injection h3 with h4 h5
            exact Or.inr h5.symm
          · split at hr
            · simp_all
            · simp_all
            · injection hr with h3
              injection h3 with h4 h5
              exact Or.inl h5.symm
    · simp [serve, hm] at h

/-- Each of the five handled methods has a response map. -/
theorem response_map_isSome (cfg : Configuration) (method : String)
    (hm : method ∈ doMethods) :
    ∃ methodMap, response_map cfg method = some methodMap := by
  simp only [doMethods, List.mem_cons, List.mem_singleton,
    List.not_mem_nil, or_false] at hm
  rcases hm with rfl | rfl | rfl | rfl | rfl
  all_goals exact ⟨_, rfl⟩

/-- C8: a request with a handled method, a non-introspection path, and no
configured entry for exactly that method and path string (the dict lookup
is an exact string match, with no normalisation of any kind) is answered
with the synthesized 404: status `404`, header
`Content-Type: application/json`, and body
`{"message": "path '<path>' not found"}` with the request path inserted —
stated here for paths that JSON escaping leaves unchanged. -/
theorem C8_not_found (cfg : Configuration) (registry : List CallRecord)
    (path method : String) (content : Option Bytes)
    (hm : method ∈ doMethods)
    (hp : startsWithMocker path = false)
    (hmiss : ∀ methodMap, response_map cfg method = some methodMap →
      methodMap path = none)
    (hesc : jsonEscape path = path) :
    ∀ r registry1,
      retrieve_response cfg registry path method content
        = .ok (r, registry1) →
      r.response_code = 404
      ∧ r.headers = [("Content-Type", "application/json")]
      ∧ RespBody.text r.body =
          "\x7b\"message\": \"path " ++ sq ++ path ++ sq
            ++ " not found\"\x7d" := by
  intro r registry1 hr
  cases ha : CallsRegistry.add registry path method content with
  | error e =>
    simp only [retrieve_response, hp, Bool.false_eq_true, if_false,
      ha] at hr
    exact Except.noConfusion hr
  | ok reg2 =>
    simp only [retrieve_response, hp, Bool.false_eq_true, if_false,
      ha] at hr
    obtain ⟨methodMap, hmap⟩ := response_map_isSome cfg method hm
    simp only [hmap, hmiss methodMap hmap] at hr
    injection hr with h3
    injection h3 with h4 h5
    subst h4
    refine ⟨rfl, rfl, ?_⟩
    show (mkMockedResponseBody (some (notFoundBody path))).content = _
    rw [mkMockedResponseBody_content, notFoundBody, hesc]

/-- C8, witness: `GET /nope` against the empty configuration yields the
404 with body `{"message": "path '/nope' not found"}`. -/
theorem C8_witness :
    (notFoundResponse "GET" "/nope").response_code = 404
    ∧ (notFoundResponse "GET" "/nope").headers
      = [("Content-Type", "application/json")]
    ∧ RespBody.text (notFoundResponse "GET" "/nope").body =
        "\x7b\"message\": \"path " ++ sq ++ "/nope" ++ sq
          ++ " not found\"\x7d" :=
  C8_not_found cfgEmpty [] "/nope" "GET" none (by decide) (by decide)
    (by
      intro methodMap hmap
      injection hmap with h2
      rw [← h2]
      rfl)
    (by decide)
    (notFoundResponse "GET" "/nope") [⟨"/nope", "GET", none⟩] (by decide)

/-- C9, counterexample: the claim says `PATCH /mocker` is answered
`500 Unknown method`; but `SimpleHandler` defines no `do_PATCH`, so
`BaseHTTPRequestHandler` answers `501 Unsupported method` itself and
`retrieve_response` never runs. -/
theorem C9_counterexample :
    serve cfgEmpty fsEmpty [] "PATCH" "/mocker" none
      = ServerReply.unsupportedMethod501
    ∧ (serve cfgEmpty fsEmpty [] "PATCH" "/mocker" none).statusSent
      = some 501 := by
  refine ⟨by decide, by decide⟩

/-- C9, amended: on an introspection path, a request whose method is one
of the handled methods other than GET and DELETE — HEAD, POST or PUT —
is answered with status 500 and body `Unknown method`, leaving the
registry unchanged; a method with no `do_` handler, such as PATCH, is
instead answered `501` by the HTTP machinery. -/
theorem C9_amended (cfg : Configuration) (fs : FileSystem)
    (registry : List CallRecord) (method path : String)
    (content : Option Bytes)
    (hp : startsWithMocker path = true)
    (hm : method = "HEAD" ∨ method = "POST" ∨ method = "PUT") :
    serve cfg fs registry method path content =
      .replied ⟨500, [], ("Unknown method" : String).length, 0,
        PyVal.pyBytes (utf8Encode "Unknown method")⟩ registry := by
  rcases hm with rfl | rfl | rfl
  all_goals
    simp [serve, doMethods, retrieve_response, hp, send, mkMockerResponse,
      responseInit, pyOrNat, pyOrStr, pyOrHeaders, mkMockerBody,
      RespBody.pyLen, RespBody.load, MockerBody.pyLen, MockerBody.load]

/-- C9, witness: `POST /mocker` yields `500 Unknown method`. -/
theorem C9_witness :
    serve cfgEmpty fsEmpty [] "POST" "/mocker" none =
      .replied ⟨500, [], ("Unknown method" : String).length, 0,
        PyVal.pyBytes (utf8Encode "Unknown method")⟩ [] :=
  C9_amended cfgEmpty fsEmpty [] "POST" "/mocker" none (by decide)
    (Or.inr (Or.inl rfl))

/-- C6, witness: an answered `POST /foo` against the empty configuration
(a lookup miss, answered 404) still grows the empty registry by one
record. -/
theorem C6_witness :
    ∃ rec, [(⟨"/foo", "POST", none⟩ : CallRecord)] = [] ++ [rec] :=
  (C6_registry_growth cfgEmpty fsEmpty [] "POST" "/foo" none).1 (by decide)
    (send fsEmpty (notFoundResponse "POST" "/foo"))
    [(⟨"/foo", "POST", none⟩ : CallRecord)] (by decide)

/-- C10: `Response.__init__` substitutes defaults for every falsy
configured value: `None`/`0` response codes become `200`, `None`/empty
paths become `/`, `None`/empty methods become `GET`, a `None` delay becomes
`0`, `None` headers become `[]`, and a `None` body becomes the empty inline
body; consequently no constructed response has status code `0` or an empty
path. -/
theorem C10_falsy_defaults (method path : Option String) (code : Option Nat)
    (headers : Option (List (String × String))) (body : Option String)
    (delay : Option Nat) :
    ((code = none ∨ code = some 0) →
      (mkMockedResponse method path code headers body delay).response_code
        = 200)
    ∧ ((path = none ∨ path = some "") →
      (mkMockedResponse method path code headers body delay).path = "/")
    ∧ ((method = none ∨ method = some "") →
      (mkMockedResponse method path code headers body delay).method = "GET")
    ∧ (delay = none →
      (mkMockedResponse method path code headers body delay).delay = 0)
    ∧ (headers = none →
      (mkMockedResponse method path code headers body delay).headers = [])
    ∧ (body = none →
      (mkMockedResponse method path code headers body delay).body =
        RespBody.mocked ⟨"", false⟩)
    ∧ (mkMockedResponse method path code headers body delay).response_code
        ≠ 0
    ∧ (mkMockedResponse method path code headers body delay).path ≠ "" := by
  refine ⟨?_, ?_, ?_, ?_, ?_, ?_, ?_, ?_⟩
  · rintro (rfl | rfl) <;> simp [mkMockedResponse, responseInit, pyOrNat]
  · rintro (rfl | rfl) <;> simp [mkMockedResponse, responseInit, pyOrStr]
  · rintro (rfl | rfl) <;> simp [mkMockedResponse, responseInit, pyOrStr]
  · rintro rfl
    simp [mkMockedResponse, responseInit, pyOrNat]
  · rintro rfl
    simp [mkMockedResponse, responseInit, pyOrHeaders]
  · rintro rfl
    rfl
  · rcases code with _ | n
    · simp [mkMockedResponse, responseInit, pyOrNat]
    · by_cases h : n = 0 <;> simp [mkMockedResponse, responseInit, pyOrNat, h]
  · rcases path with _ | s
    · simp [mkMockedResponse, responseInit, pyOrStr]
    · by_cases h : s = "" <;> simp [mkMockedResponse, responseInit, pyOrStr, h]

/-- C10, witness: a configured response code `0` and empty path give a
`200` response at path `/`. -/
theorem C10_witness :
    (mkMockedResponse (some "") (some "") (some 0) none none
        none).response_code = 200
    ∧ (mkMockedResponse (some "") (some "") (some 0) none none
        none).path = "/" :=
  ⟨(C10_falsy_defaults (some "") (some "") (some 0) none none none).1
      (Or.inr rfl),
    (C10_falsy_defaults (some "") (some "") (some 0) none none none).2.1
      (Or.inr rfl)⟩

end MockServer
